import Mathlib

/-!
Shallow embedding of the Quote Jar application: the session-based server
in src/app.js and the legacy pre-session variant in src/unnamed/part_000.
Route handlers become pure functions from request data and a database
state to a response and a new database state; Sequelize where-objects
are modelled structurally so that the owner-filter discipline of the
queries is itself a statable property.
-/

namespace QuoteJar

/-- A row of the users table (src/app.js lines 62-68): a `username`
column with allowNull false and unique, plus the autoincrement surrogate
key `id`. -/
structure User where
  id : Nat
  username : String
  deriving DecidableEq

/-- A row of the quotes table (src/app.js lines 71-88) together with the
columns Sequelize adds: the surrogate key `id`, the foreign key `UserId`
from Quote.belongsTo(User), and the `createdAt` timestamp.  `location`
and `date` allow null, hence Option. -/
structure Quote where
  id : Nat
  quoteText : String
  personName : String
  location : Option String
  date : Option String
  UserId : Nat
  createdAt : Nat
  deriving DecidableEq

/-- The per-session state set by POST /login: `req.session.userId` and
`req.session.username`.  A request carries `some` session exactly when a
valid session cookie maps to stored session state. -/
structure Session where
  userId : Nat
  username : String
  deriving DecidableEq

/-- The database: both tables in insertion order, the autoincrement
counters, and a clock supplying strictly increasing createdAt values. -/
structure DB where
  users : List User
  quotes : List Quote
  nextUserId : Nat
  nextQuoteId : Nat
  clock : Nat
  deriving DecidableEq

/-- A Sequelize where-object over the quotes table, restricted to the
two keys the handlers use: `id` and `UserId`.  A key absent from the
object is `none`. -/
structure QuoteWhere where
  id : Option Nat
  UserId : Option Nat
  deriving DecidableEq

/-- Whether a quote row satisfies a where-object: the conjunction of the
present keys. -/
def quoteMatches (w : QuoteWhere) (q : Quote) : Bool :=
  (match w.id with
   | none => true
   | some i => q.id == i) &&
  (match w.UserId with
   | none => true
   | some u => q.UserId == u)

/-- A where-object that touches quotes by id also carries the owner
filter. -/
def ownerFiltered (w : QuoteWhere) : Prop :=
  w.id.isSome → w.UserId.isSome

/-- where-object of Quote.findAll in GET /home (src/app.js line 170). -/
def homeWhere (uid : Nat) : QuoteWhere :=
  { id := none, UserId := some uid }

/-- where-object of Quote.destroy in POST /quotes/:id/delete
(src/app.js lines 216-219). -/
def deleteWhere (qid uid : Nat) : QuoteWhere :=
  { id := some qid, UserId := some uid }

/-- where-object of Quote.findOne in GET /quotes/:id/edit
(src/app.js lines 232-235). -/
def editFormWhere (qid uid : Nat) : QuoteWhere :=
  { id := some qid, UserId := some uid }

/-- where-object of Quote.update in POST /quotes/:id/edit
(src/app.js lines 262-265). -/
def editUpdateWhere (qid uid : Nat) : QuoteWhere :=
  { id := some qid, UserId := some uid }

/-- where-object of Quote.findAll in GET /stats (line 279) and GET /game
(line 296). -/
def statsWhere (uid : Nat) : QuoteWhere :=
  { id := none, UserId := some uid }

/-- Quote.findAll with a where-object and no order clause: the matching
rows in table order. -/
def findAllQuotes (db : DB) (w : QuoteWhere) : List Quote :=
  db.quotes.filter (quoteMatches w)

/-- The order relation of `order: [[createdAt, DESC]]`. -/
def createdAtDesc (a b : Quote) : Prop :=
  b.createdAt ≤ a.createdAt

instance : DecidableRel createdAtDesc :=
  fun a b => Nat.decLe b.createdAt a.createdAt

instance : IsTotal Quote createdAtDesc :=
  ⟨fun a b => Nat.le_total b.createdAt a.createdAt⟩

instance : IsTrans Quote createdAtDesc :=
  ⟨fun _ _ _ h1 h2 => Nat.le_trans h2 h1⟩

/-- Quote.findAll with `order: [[createdAt, DESC]]`: the matching rows
sorted by createdAt descending. -/
def findAllQuotesDesc (db : DB) (w : QuoteWhere) : List Quote :=
  List.insertionSort createdAtDesc (findAllQuotes db w)

/-- Quote.findOne: the first row matching the where-object, if any. -/
def findOneQuote (db : DB) (w : QuoteWhere) : Option Quote :=
  db.quotes.find? (quoteMatches w)

/-- Quote.destroy: remove every row matching the where-object. -/
def quoteDestroy (db : DB) (w : QuoteWhere) : DB :=
  { db with quotes := db.quotes.filter (fun q => !(quoteMatches w q)) }

/-- The observable response of a handler: a redirect, a rendered view
carrying the data handed to the template, a 404, or a generic 500. -/
inductive Response where
  | redirect (target : String)
  | renderHome (quotes : List Quote) (username : String)
  | renderEditForm (quote : Quote) (username : String)
  | renderStats (quotesJSON : List Quote) (username : String)
  | renderGameInsufficient (quotes : List Quote) (username : String)
  | renderGame (quotesJSON : List Quote) (username : String)
  | notFound (msg : String)
  | serverError (msg : String)
  deriving DecidableEq

/-- The requireLogin middleware (src/app.js lines 102-107): with no
userId in the session the request is redirected to the landing page
before the route handler runs, so the database is untouched. -/
def requireLogin (sess : Option Session) (db : DB)
    (handler : Session → Response × DB) : Response × DB :=
  match sess with
  | none => (Response.redirect "/", db)
  | some s => handler s

/-- POST /login (src/app.js lines 122-158): find a user by exact
username match; create one when absent (User.create accepts any string,
the autoincrement counter supplies the id); either way bind the session
to the user's id and username and redirect to /home. -/
def postLogin (username : String) (db : DB) : Response × Session × DB :=
  match db.users.find? (fun u => u.username == username) with
  | some u =>
      (Response.redirect "/home", { userId := u.id, username := u.username }, db)
  | none =>
      (Response.redirect "/home",
       { userId := db.nextUserId, username := username },
       { db with
           users := db.users ++ [{ id := db.nextUserId, username := username }],
           nextUserId := db.nextUserId + 1 })

/-- GET /logout (src/app.js lines 161-164): destroy the session state,
so the old cookie no longer resolves to a session, and redirect to the
landing page. -/
def getLogout (_sess : Option Session) : Response × Option Session :=
  (Response.redirect "/", none)

/-- GET /home (src/app.js lines 167-182): list the session user's
quotes, newest first. -/
def getHome (sess : Option Session) (db : DB) : Response × DB :=
  requireLogin sess db fun s =>
    (Response.renderHome (findAllQuotesDesc db (homeWhere s.userId)) s.username, db)

/-- The body of a create-quote request: each field is either absent
(`none`) or a submitted string, which may be empty. -/
structure QuoteForm where
  quoteText : Option String
  personName : Option String
  location : Option String
  date : Option String
  deriving DecidableEq

/-- JS `v || null` applied to a form field: an absent field and the
empty string both collapse to null; any other string is kept. -/
def orNull : Option String → Option String
  | none => none
  | some s => if s = "" then none else some s

/-- Quote.create with the model's allowNull validation: `quoteText` and
`personName` must not be null or undefined, while any submitted string,
the empty string included, passes.  On success the new row is appended
with the next id, the session user as owner, and the current clock as
createdAt. -/
def quoteCreate (db : DB) (uid : Nat) (f : QuoteForm) : Except String DB :=
  match f.quoteText, f.personName with
  | some qt, some pn =>
      Except.ok
        { db with
            quotes := db.quotes ++
              [{ id := db.nextQuoteId, quoteText := qt, personName := pn,
                 location := orNull f.location, date := orNull f.date,
                 UserId := uid, createdAt := db.clock }],
            nextQuoteId := db.nextQuoteId + 1,
            clock := db.clock + 1 }
  | _, _ => Except.error "notNull violation"

/-- POST /add-quote (src/app.js lines 193-210): create the quote and
redirect to /home; a validation failure is caught and surfaced as the
generic error response, leaving the database unchanged. -/
def postAddQuote (sess : Option Session) (f : QuoteForm) (db : DB) : Response × DB :=
  requireLogin sess db fun s =>
    match quoteCreate db s.userId f with
    | Except.ok db2 => (Response.redirect "/home", db2)
    | Except.error _ => (Response.serverError "Error adding quote", db)

/-- POST /quotes/:id/delete (src/app.js lines 213-226): destroy filtered
by id and owner, then redirect to /home regardless of how many rows
matched. -/
def postDeleteQuote (sess : Option Session) (qid : Nat) (db : DB) : Response × DB :=
  requireLogin sess db fun s =>
    (Response.redirect "/home", quoteDestroy db (deleteWhere qid s.userId))

/-- GET /quotes/:id/edit (src/app.js lines 229-249): findOne by id and
owner; render the form when found, a 404 when no row matches. -/
def getEditQuote (sess : Option Session) (qid : Nat) (db : DB) : Response × DB :=
  requireLogin sess db fun s =>
    match findOneQuote db (editFormWhere qid s.userId) with
    | none => (Response.notFound "Quote not found", db)
    | some q => (Response.renderEditForm q s.username, db)

/-- The body of an edit submission: the edit form posts all four content
fields, each a string that may be empty. -/
structure EditForm where
  quoteText : String
  personName : String
  location : String
  date : String
  deriving DecidableEq

/-- JS `v || null` applied to a present string field. -/
def strOrNull (s : String) : Option String :=
  if s = "" then none else some s

/-- Quote.update: overwrite the four content fields of every row
matching the where-object; id, UserId and createdAt are not among the
updated columns.  Rows that do not match are untouched. -/
def quoteUpdate (db : DB) (w : QuoteWhere) (f : EditForm) : DB :=
  { db with
      quotes := db.quotes.map fun q =>
        if quoteMatches w q then
          { q with quoteText := f.quoteText, personName := f.personName,
                   location := strOrNull f.location, date := strOrNull f.date }
        else q }

/-- POST /quotes/:id/edit (src/app.js lines 252-273): update filtered by
id and owner, then redirect to /home regardless of how many rows
matched. -/
def postEditQuote (sess : Option Session) (qid : Nat) (f : EditForm) (db : DB) : Response × DB :=
  requireLogin sess db fun s =>
    (Response.redirect "/home", quoteUpdate db (editUpdateWhere qid s.userId) f)

/-- GET /stats (src/app.js lines 276-290): serialize the session user's
full quote set for the view. -/
def getStats (sess : Option Session) (db : DB) : Response × DB :=
  requireLogin sess db fun s =>
    (Response.renderStats (findAllQuotes db (statsWhere s.userId)) s.username, db)

/-- GET /game (src/app.js lines 293-318): with fewer than two quotes
render the insufficiency state (an error message and an empty quote
list); otherwise serialize the full quote set for the quiz view. -/
def getGame (sess : Option Session) (db : DB) : Response × DB :=
  requireLogin sess db fun s =>
    if (findAllQuotes db (statsWhere s.userId)).length < 2 then
      (Response.renderGameInsufficient [] s.username, db)
    else
      (Response.renderGame (findAllQuotes db (statsWhere s.userId)) s.username, db)

/-- A quote row of the legacy variant (src/unnamed/part_000 lines
38-55): its Quote model has no User relation and no owner column. -/
structure LegacyQuote where
  id : Nat
  quoteText : String
  personName : String
  location : Option String
  date : Option String
  createdAt : Nat
  deriving DecidableEq

/-- where-object of Quote.destroy in the legacy POST /quotes/:id/delete
(src/unnamed/part_000 lines 105-115): the object carries the single key
id and no UserId key. -/
def legacyDeleteWhere (qid : Nat) : QuoteWhere :=
  { id := some qid, UserId := none }

/-- where-object of Quote.update in the legacy POST /quotes/:id/edit
(src/unnamed/part_000 line 145): id only. -/
def legacyEditWhere (qid : Nat) : QuoteWhere :=
  { id := some qid, UserId := none }

/-- The legacy POST /quotes/:id/delete handler (src/unnamed/part_000
lines 105-115): destroy by bare id — no session, no owner filter — then
redirect to the listing. -/
def legacyPostDeleteQuote (qid : Nat) (quotes : List LegacyQuote) :
    Response × List LegacyQuote :=
  (Response.redirect "/", quotes.filter fun q => !(q.id == qid))

/-! ### Basic query lemmas -/

theorem quoteMatches_byUser (uid : Nat) (q : Quote) :
    quoteMatches { id := none, UserId := some uid } q = (q.UserId == uid) := by
  simp [quoteMatches]

theorem quoteMatches_byIdUser (qid uid : Nat) (q : Quote) :
    quoteMatches { id := some qid, UserId := some uid } q = (q.id == qid && q.UserId == uid) :=
  rfl

theorem mem_findAllQuotes_byUser (db : DB) (uid : Nat) (q : Quote) :
    q ∈ findAllQuotes db (statsWhere uid) ↔ q ∈ db.quotes ∧ q.UserId = uid := by
  simp [findAllQuotes, statsWhere, List.mem_filter, quoteMatches]

theorem mem_findAllQuotesDesc_byUser (db : DB) (uid : Nat) (q : Quote) :
    q ∈ findAllQuotesDesc db (homeWhere uid) ↔ q ∈ db.quotes ∧ q.UserId = uid := by
  rw [findAllQuotesDesc, List.mem_insertionSort]
  simp [findAllQuotes, homeWhere, List.mem_filter, quoteMatches]

/-! ### Claim theorems -/

/-- C5: a request to any protected route (home, add-quote, edit form,
edit submit, delete, stats, game) that carries no valid session — in
particular any request whose session was destroyed by logout — is
answered with a redirect to the landing page and leaves the database
untouched. -/
theorem no_session_redirects_and_preserves (db : DB) (qid : Nat)
    (f : QuoteForm) (g : EditForm) (s : Option Session) :
    getHome none db = (Response.redirect "/", db) ∧
    postAddQuote none f db = (Response.redirect "/", db) ∧
    getEditQuote none qid db = (Response.redirect "/", db) ∧
    postEditQuote none qid g db = (Response.redirect "/", db) ∧
    postDeleteQuote none qid db = (Response.redirect "/", db) ∧
    getStats none db = (Response.redirect "/", db) ∧
    getGame none db = (Response.redirect "/", db) ∧
    (getLogout s).2 = none ∧
    getHome (getLogout s).2 db = (Response.redirect "/", db) :=
  ⟨rfl, rfl, rfl, rfl, rfl, rfl, rfl, rfl, rfl⟩

/-- C2 counterexample: a create-quote request whose quoteText is the
empty string does not fail — allowNull validation only rejects
null/undefined — so the request redirects to /home and a quote row with
empty quoteText is persisted. -/
theorem create_empty_string_persists :
    postAddQuote (some { userId := 1, username := "alice" })
        { quoteText := some "", personName := some "Bob", location := none, date := none }
        { users := [{ id := 1, username := "alice" }], quotes := [],
          nextUserId := 2, nextQuoteId := 1, clock := 0 } =
      (Response.redirect "/home",
       { users := [{ id := 1, username := "alice" }],
         quotes := [{ id := 1, quoteText := "", personName := "Bob",
                      location := none, date := none, UserId := 1, createdAt := 0 }],
         nextUserId := 2, nextQuoteId := 2, clock := 1 }) :=
  rfl

/-- C2 (amended): a create-quote request in which quoteText or
personName is absent (null/undefined) fails with the generic error
response and persists nothing; the database is returned unchanged. -/
theorem create_missing_required_fails (s : Session) (f : QuoteForm) (db : DB)
    (h : f.quoteText = none ∨ f.personName = none) :
    postAddQuote (some s) f db = (Response.serverError "Error adding quote", db) := by
  rcases h with h | h
  · simp [postAddQuote, requireLogin, quoteCreate, h]
  · cases hqt : f.quoteText with
    | none => simp [postAddQuote, requireLogin, quoteCreate, hqt]
    | some qt => simp [postAddQuote, requireLogin, quoteCreate, hqt, h]

/-- C2 witness: a concrete create request with personName absent fails
with the generic error and leaves the concrete database unchanged. -/
theorem create_missing_required_fails_witness :
    postAddQuote (some { userId := 1, username := "alice" })
        { quoteText := some "Hi", personName := none, location := none, date := none }
        { users := [{ id := 1, username := "alice" }], quotes := [],
          nextUserId := 2, nextQuoteId := 1, clock := 0 } =
      (Response.serverError "Error adding quote",
       { users := [{ id := 1, username := "alice" }], quotes := [],
         nextUserId := 2, nextQuoteId := 1, clock := 0 }) :=
  create_missing_required_fails _ _ _ (Or.inr rfl)

/-- C9: a login with the empty-string username succeeds: it binds a
session whose username is the empty string to a user row whose username
is the empty string (found or newly created), the response redirects to
/home, and the requireLogin guard subsequently accepts the session on a
protected route, rendering the home listing. -/
theorem login_empty_username_succeeds (db : DB) :
    (postLogin "" db).2.1.username = "" ∧
    (∃ u : User, u ∈ (postLogin "" db).2.2.users ∧
       u.id = (postLogin "" db).2.1.userId ∧ u.username = "") ∧
    (postLogin "" db).1 = Response.redirect "/home" ∧
    getHome (some (postLogin "" db).2.1) (postLogin "" db).2.2 =
      (Response.renderHome
         (findAllQuotesDesc (postLogin "" db).2.2
           (homeWhere (postLogin "" db).2.1.userId)) "",
       (postLogin "" db).2.2) := by
  cases hfind : db.users.find? (fun u => u.username == "") with
  | none =>
      refine ⟨?_, ?_, ?_, ?_⟩
      · simp [postLogin, hfind]
      · refine ⟨{ id := db.nextUserId, username := "" }, ?_, ?_, rfl⟩
        · simp [postLogin, hfind]
        · simp [postLogin, hfind]
      · simp [postLogin, hfind]
      · simp [postLogin, hfind, getHome, requireLogin]
  | some u =>
      have hu : u.username = "" := by
        have := List.find?_some hfind
        simpa using this
      have hmem : u ∈ db.users := List.mem_of_find?_eq_some hfind
      refine ⟨?_, ?_, ?_, ?_⟩
      · simp [postLogin, hfind, hu]
      · exact ⟨u, by simp [postLogin, hfind, hmem], by simp [postLogin, hfind], hu⟩
      · simp [postLogin, hfind]
      · simp [postLogin, hfind, getHome, requireLogin, hu]

/-- C4: logging in with a username not present in the users table
creates exactly one user row (appended, with the next id) and binds the
session to its id and username; a second login with the same username
creates no new user and binds a session to the same existing user. -/
theorem login_find_or_create_idempotent (db : DB) (U : String)
    (hfresh : ∀ u ∈ db.users, u.username ≠ U) :
    (postLogin U db).2.2.users = db.users ++ [{ id := db.nextUserId, username := U }] ∧
    (postLogin U db).2.1 = { userId := db.nextUserId, username := U } ∧
    (postLogin U (postLogin U db).2.2).2.2 = (postLogin U db).2.2 ∧
    (postLogin U (postLogin U db).2.2).2.1 = (postLogin U db).2.1 := by
  have hnone : db.users.find? (fun u => u.username == U) = none := by
    rw [List.find?_eq_none]
    intro u hu
    simpa using hfresh u hu
  have hfind2 : (db.users ++ [({ id := db.nextUserId, username := U } : User)]).find?
      (fun u => u.username == U) = some { id := db.nextUserId, username := U } := by
    rw [List.find?_append, hnone]
    simp
  refine ⟨?_, ?_, ?_, ?_⟩ <;>
    simp [postLogin, hnone, hfind2]

/-- C4 witness: on an empty database, logging in twice as alice creates
the single user row with id 1 and binds both sessions to it. -/
theorem login_find_or_create_idempotent_witness :
    (postLogin "alice" { users := [], quotes := [], nextUserId := 1, nextQuoteId := 1, clock := 0 }).2.2.users =
      [] ++ [{ id := 1, username := "alice" }] ∧
    (postLogin "alice" { users := [], quotes := [], nextUserId := 1, nextQuoteId := 1, clock := 0 }).2.1 =
      { userId := 1, username := "alice" } ∧
    (postLogin "alice" (postLogin "alice" { users := [], quotes := [], nextUserId := 1, nextQuoteId := 1, clock := 0 }).2.2).2.2 =
      (postLogin "alice" { users := [], quotes := [], nextUserId := 1, nextQuoteId := 1, clock := 0 }).2.2 ∧
    (postLogin "alice" (postLogin "alice" { users := [], quotes := [], nextUserId := 1, nextQuoteId := 1, clock := 0 }).2.2).2.1 =
      (postLogin "alice" { users := [], quotes := [], nextUserId := 1, nextQuoteId := 1, clock := 0 }).2.1 :=
  login_find_or_create_idempotent _ "alice" (by intro u hu; simp at hu)

/-- C3: when no quote row carries the requested id together with the
session user as owner (nonexistent id, or a quote owned by another
user), the edit-form GET answers not-found, while the edit POST and the
delete POST affect zero rows — the database is returned unchanged — and
still redirect to the listing without surfacing an error. -/
theorem foreign_or_missing_edit_delete_noop (s : Session) (db : DB) (qid : Nat)
    (f : EditForm) (h : ∀ q ∈ db.quotes, ¬(q.id = qid ∧ q.UserId = s.userId)) :
    getEditQuote (some s) qid db = (Response.notFound "Quote not found", db) ∧
    postEditQuote (some s) qid f db = (Response.redirect "/home", db) ∧
    postDeleteQuote (some s) qid db = (Response.redirect "/home", db) := by
  have hmatch : ∀ q ∈ db.quotes,
      quoteMatches { id := some qid, UserId := some s.userId } q = false := by
    intro q hq
    have hne := h q hq
    rw [quoteMatches_byIdUser]
    by_cases h1 : q.id = qid
    · by_cases h2 : q.UserId = s.userId
      · exact absurd ⟨h1, h2⟩ hne
      · simp [h2]
    · simp [h1]
  have hfind : findOneQuote db (editFormWhere qid s.userId) = none := by
    rw [findOneQuote, List.find?_eq_none]
    intro q hq
    simp [editFormWhere, hmatch q hq]
  refine ⟨?_, ?_, ?_⟩
  · simp [getEditQuote, requireLogin, hfind]
  · have hmap : db.quotes.map (fun q =>
        if quoteMatches (editUpdateWhere qid s.userId) q then
          { q with quoteText := f.quoteText, personName := f.personName,
                   location := strOrNull f.location, date := strOrNull f.date }
        else q) = db.quotes := by
      have : db.quotes.map (fun q =>
          if quoteMatches (editUpdateWhere qid s.userId) q then
            { q with quoteText := f.quoteText, personName := f.personName,
                     location := strOrNull f.location, date := strOrNull f.date }
          else q) = db.quotes.map id := by
        apply List.map_congr_left
        intro q hq
        simp [editUpdateWhere, hmatch q hq]
      rw [this, List.map_id]
    simp [postEditQuote, requireLogin, quoteUpdate, hmap]
  · have hfilter : db.quotes.filter
        (fun q => !(quoteMatches (deleteWhere qid s.userId) q)) = db.quotes := by
      rw [List.filter_eq_self]
      intro q hq
      simp [deleteWhere, hmatch q hq]
    simp [postDeleteQuote, requireLogin, quoteDestroy, hfilter]

/-- C3 witness: with user 1 logged in and the table holding a single
quote owned by user 2, the edit form for that quote id is not-found and
the edit and delete submissions return the database unchanged. -/
theorem foreign_or_missing_edit_delete_noop_witness :
    getEditQuote (some { userId := 1, username := "alice" }) 5
        { users := [{ id := 1, username := "alice" }, { id := 2, username := "bob" }],
          quotes := [{ id := 5, quoteText := "t", personName := "p",
                       location := none, date := none, UserId := 2, createdAt := 0 }],
          nextUserId := 3, nextQuoteId := 6, clock := 1 } =
      (Response.notFound "Quote not found",
       { users := [{ id := 1, username := "alice" }, { id := 2, username := "bob" }],
         quotes := [{ id := 5, quoteText := "t", personName := "p",
                      location := none, date := none, UserId := 2, createdAt := 0 }],
         nextUserId := 3, nextQuoteId := 6, clock := 1 }) ∧
    postEditQuote (some { userId := 1, username := "alice" }) 5
        { quoteText := "x", personName := "y", location := "", date := "" }
        { users := [{ id := 1, username := "alice" }, { id := 2, username := "bob" }],
          quotes := [{ id := 5, quoteText := "t", personName := "p",
                       location := none, date := none, UserId := 2, createdAt := 0 }],
          nextUserId := 3, nextQuoteId := 6, clock := 1 } =
      (Response.redirect "/home",
       { users := [{ id := 1, username := "alice" }, { id := 2, username := "bob" }],
         quotes := [{ id := 5, quoteText := "t", personName := "p",
                      location := none, date := none, UserId := 2, createdAt := 0 }],
         nextUserId := 3, nextQuoteId := 6, clock := 1 }) ∧
    postDeleteQuote (some { userId := 1, username := "alice" }) 5
        { users := [{ id := 1, username := "alice" }, { id := 2, username := "bob" }],
          quotes := [{ id := 5, quoteText := "t", personName := "p",
                       location := none, date := none, UserId := 2, createdAt := 0 }],
          nextUserId := 3, nextQuoteId := 6, clock := 1 } =
      (Response.redirect "/home",
       { users := [{ id := 1, username := "alice" }, { id := 2, username := "bob" }],
         quotes := [{ id := 5, quoteText := "t", personName := "p",
                      location := none, date := none, UserId := 2, createdAt := 0 }],
         nextUserId := 3, nextQuoteId := 6, clock := 1 }) :=
  foreign_or_missing_edit_delete_noop _ _ 5 _ (by decide)

/-- C6: the home listing handed to the view for a logged-in user
contains exactly that user's quotes — the full set, no pagination — and
is ordered by creation time descending: whenever a listed quote was
created strictly before another listed quote, the later-created one
appears at a strictly earlier position. -/
theorem home_listing_complete_sorted (s : Session) (db : DB)
    (qs : List Quote) (un : String)
    (h : (getHome (some s) db).1 = Response.renderHome qs un) :
    (∀ q : Quote, q ∈ qs ↔ q ∈ db.quotes ∧ q.UserId = s.userId) ∧
    ∀ (i j : Nat) (hi : i < qs.length) (hj : j < qs.length),
      (qs.get ⟨i, hi⟩).createdAt < (qs.get ⟨j, hj⟩).createdAt → j < i := by
  have h2 : Response.renderHome (findAllQuotesDesc db (homeWhere s.userId)) s.username =
      Response.renderHome qs un := h
  have hqs : findAllQuotesDesc db (homeWhere s.userId) = qs := by
    injection h2
  subst hqs
  constructor
  · intro q
    exact mem_findAllQuotesDesc_byUser db s.userId q
  · have hsorted : List.Pairwise createdAtDesc
        (findAllQuotesDesc db (homeWhere s.userId)) :=
      List.sorted_insertionSort createdAtDesc (findAllQuotes db (homeWhere s.userId))
    intro i j hi hj hlt
    rcases Nat.lt_trichotomy j i with hji | hji | hji
    · exact hji
    · subst hji
      exact absurd hlt (Nat.lt_irrefl _)
    · have := (List.pairwise_iff_get.mp hsorted) ⟨i, hi⟩ ⟨j, hj⟩ hji
      exact absurd hlt (Nat.not_lt_of_le this)

/-- C6 witness: for a user owning two quotes created at times 0 and 1,
the home listing is the two quotes newest first, its membership
coincides with ownership, and the later-created quote precedes the
earlier one. -/
theorem home_listing_complete_sorted_witness :
    (({ id := 1, quoteText := "a", personName := "p", location := none, date := none,
        UserId := 1, createdAt := 0 } : Quote) ∈
      [({ id := 2, quoteText := "b", personName := "q", location := none, date := none,
          UserId := 1, createdAt := 1 } : Quote),
       { id := 1, quoteText := "a", personName := "p", location := none, date := none,
         UserId := 1, createdAt := 0 }] ↔
      ({ id := 1, quoteText := "a", personName := "p", location := none, date := none,
         UserId := 1, createdAt := 0 } : Quote) ∈
        [({ id := 1, quoteText := "a", personName := "p", location := none, date := none,
            UserId := 1, createdAt := 0 } : Quote),
         { id := 2, quoteText := "b", personName := "q", location := none, date := none,
           UserId := 1, createdAt := 1 }] ∧
      ({ id := 1, quoteText := "a", personName := "p", location := none, date := none,
         UserId := 1, createdAt := 0 } : Quote).UserId = 1) ∧
    (0 : Nat) < 1 := by
  have happ := home_listing_complete_sorted { userId := 1, username := "alice" }
    { users := [{ id := 1, username := "alice" }],
      quotes := [{ id := 1, quoteText := "a", personName := "p", location := none,
                   date := none, UserId := 1, createdAt := 0 },
                 { id := 2, quoteText := "b", personName := "q", location := none,
                   date := none, UserId := 1, createdAt := 1 }],
      nextUserId := 2, nextQuoteId := 3, clock := 2 }
    [{ id := 2, quoteText := "b", personName := "q", location := none, date := none,
       UserId := 1, createdAt := 1 },
     { id := 1, quoteText := "a", personName := "p", location := none, date := none,
       UserId := 1, createdAt := 0 }]
    "alice" (by decide)
  exact ⟨happ.1 _, happ.2 1 0 (by decide) (by decide) (by decide)⟩

/-- C7: for a logged-in user the quiz route renders the insufficiency
state (the error message with an empty quote list) exactly when the
user owns fewer than two quotes, and renders the full serialized quote
set — exactly the user's quotes — when the user owns two or more. -/
theorem game_insufficiency_threshold (s : Session) (db : DB) :
    ((findAllQuotes db (statsWhere s.userId)).length < 2 →
      getGame (some s) db = (Response.renderGameInsufficient [] s.username, db)) ∧
    (2 ≤ (findAllQuotes db (statsWhere s.userId)).length →
      getGame (some s) db =
        (Response.renderGame (findAllQuotes db (statsWhere s.userId)) s.username, db)) ∧
    (∀ q : Quote, q ∈ findAllQuotes db (statsWhere s.userId) ↔
      q ∈ db.quotes ∧ q.UserId = s.userId) := by
  refine ⟨?_, ?_, fun q => mem_findAllQuotes_byUser db s.userId q⟩
  · intro hlt
    simp [getGame, requireLogin, hlt]
  · intro hge
    have hnl : ¬ (findAllQuotes db (statsWhere s.userId)).length < 2 :=
      Nat.not_lt_of_le hge
    simp [getGame, requireLogin, hnl]

/-- C7 witness: a user with no quotes gets the insufficiency render,
and a user with two quotes gets the full serialized pair. -/
theorem game_insufficiency_threshold_witness :
    getGame (some { userId := 1, username := "alice" })
        { users := [{ id := 1, username := "alice" }], quotes := [],
          nextUserId := 2, nextQuoteId := 1, clock := 0 } =
      (Response.renderGameInsufficient [] "alice",
       { users := [{ id := 1, username := "alice" }], quotes := [],
         nextUserId := 2, nextQuoteId := 1, clock := 0 }) ∧
    getGame (some { userId := 1, username := "alice" })
        { users := [{ id := 1, username := "alice" }],
          quotes := [{ id := 1, quoteText := "a", personName := "p", location := none,
                       date := none, UserId := 1, createdAt := 0 },
                     { id := 2, quoteText := "b", personName := "q", location := none,
                       date := none, UserId := 1, createdAt := 1 }],
          nextUserId := 2, nextQuoteId := 3, clock := 2 } =
      (Response.renderGame
         [{ id := 1, quoteText := "a", personName := "p", location := none,
            date := none, UserId := 1, createdAt := 0 },
          { id := 2, quoteText := "b", personName := "q", location := none,
            date := none, UserId := 1, createdAt := 1 }] "alice",
       { users := [{ id := 1, username := "alice" }],
         quotes := [{ id := 1, quoteText := "a", personName := "p", location := none,
                      date := none, UserId := 1, createdAt := 0 },
                    { id := 2, quoteText := "b", personName := "q", location := none,
                      date := none, UserId := 1, createdAt := 1 }],
         nextUserId := 2, nextQuoteId := 3, clock := 2 }) := by
  constructor
  · exact (game_insufficiency_threshold { userId := 1, username := "alice" } _).1 (by decide)
  · exact (game_insufficiency_threshold { userId := 1, username := "alice" } _).2.1 (by decide)

/-- C8: a submitted edit replaces, in the row carrying the requested id
and owned by the session user, all four content fields with the
submitted values (location and date normalised empty-to-null by the
handler), keeps that row's id, owner and creation time — the row is the
record update of the old row on the four content fields only — leaves
every row not matching id-and-owner exactly unchanged at its position,
and redirects to the listing. -/
theorem edit_replaces_all_fields (s : Session) (db : DB) (qid : Nat) (f : EditForm)
    (i : Nat) (q : Quote) (hq : db.quotes.get? i = some q) :
    (q.id = qid ∧ q.UserId = s.userId →
      (postEditQuote (some s) qid f db).2.quotes.get? i =
        some { q with quoteText := f.quoteText, personName := f.personName,
                      location := strOrNull f.location, date := strOrNull f.date }) ∧
    (¬(q.id = qid ∧ q.UserId = s.userId) →
      (postEditQuote (some s) qid f db).2.quotes.get? i = some q) ∧
    (postEditQuote (some s) qid f db).1 = Response.redirect "/home" := by
  have hpost : (postEditQuote (some s) qid f db).2.quotes =
      db.quotes.map (fun r =>
        if quoteMatches (editUpdateWhere qid s.userId) r then
          { r with quoteText := f.quoteText, personName := f.personName,
                   location := strOrNull f.location, date := strOrNull f.date }
        else r) := rfl
  refine ⟨?_, ?_, rfl⟩
  · rintro ⟨h1, h2⟩
    have hm : quoteMatches { id := some qid, UserId := some s.userId } q = true := by
      rw [quoteMatches_byIdUser]
      simp [h1, h2]
    rw [hpost, List.get?_map, hq]
    simp [editUpdateWhere, hm]
  · intro hne
    have hm : quoteMatches { id := some qid, UserId := some s.userId } q = false := by
      rw [quoteMatches_byIdUser]
      by_cases h1 : q.id = qid
      · by_cases h2 : q.UserId = s.userId
        · exact absurd ⟨h1, h2⟩ hne
        · simp [h2]
      · simp [h1]
    rw [hpost, List.get?_map, hq]
    simp [editUpdateWhere, hm]

/-- C8 witness: editing quote id 7 as its owner replaces its four
content fields (the empty location becoming null) while preserving its
id, owner and creation time, and the foreign-owned row at the next
position is unchanged. -/
theorem edit_replaces_all_fields_witness :
    (postEditQuote (some { userId := 1, username := "alice" }) 7
        { quoteText := "new", personName := "who", location := "", date := "d" }
        { users := [{ id := 1, username := "alice" }, { id := 2, username := "bob" }],
          quotes := [{ id := 7, quoteText := "old", personName := "p", location := some "l",
                       date := none, UserId := 1, createdAt := 0 },
                     { id := 8, quoteText := "t", personName := "r", location := none,
                       date := none, UserId := 2, createdAt := 1 }],
          nextUserId := 3, nextQuoteId := 9, clock := 2 }).2.quotes.get? 0 =
      some { id := 7, quoteText := "new", personName := "who", location := none,
             date := some "d", UserId := 1, createdAt := 0 } ∧
    (postEditQuote (some { userId := 1, username := "alice" }) 7
        { quoteText := "new", personName := "who", location := "", date := "d" }
        { users := [{ id := 1, username := "alice" }, { id := 2, username := "bob" }],
          quotes := [{ id := 7, quoteText := "old", personName := "p", location := some "l",
                       date := none, UserId := 1, createdAt := 0 },
                     { id := 8, quoteText := "t", personName := "r", location := none,
                       date := none, UserId := 2, createdAt := 1 }],
          nextUserId := 3, nextQuoteId := 9, clock := 2 }).2.quotes.get? 1 =
      some { id := 8, quoteText := "t", personName := "r", location := none,
             date := none, UserId := 2, createdAt := 1 } := by
  constructor
  · exact (edit_replaces_all_fields { userId := 1, username := "alice" }
      { users := [{ id := 1, username := "alice" }, { id := 2, username := "bob" }],
        quotes := [{ id := 7, quoteText := "old", personName := "p", location := some "l",
                     date := none, UserId := 1, createdAt := 0 },
                   { id := 8, quoteText := "t", personName := "r", location := none,
                     date := none, UserId := 2, createdAt := 1 }],
        nextUserId := 3, nextQuoteId := 9, clock := 2 } 7
      { quoteText := "new", personName := "who", location := "", date := "d" } 0
      { id := 7, quoteText := "old", personName := "p", location := some "l",
        date := none, UserId := 1, createdAt := 0 } rfl).1 ⟨rfl, rfl⟩
  · exact (edit_replaces_all_fields { userId := 1, username := "alice" }
      { users := [{ id := 1, username := "alice" }, { id := 2, username := "bob" }],
        quotes := [{ id := 7, quoteText := "old", personName := "p", location := some "l",
                     date := none, UserId := 1, createdAt := 0 },
                   { id := 8, quoteText := "t", personName := "r", location := none,
                     date := none, UserId := 2, createdAt := 1 }],
        nextUserId := 3, nextQuoteId := 9, clock := 2 } 7
      { quoteText := "new", personName := "who", location := "", date := "d" } 1
      { id := 8, quoteText := "t", personName := "r", location := none,
        date := none, UserId := 2, createdAt := 1 } rfl).2.1 (by decide)

/-- C10: a create-quote request with both required fields present
appends exactly one new quote row — owned by the session user, its
location and date null whenever the submitted value is empty or absent
— leaves every pre-existing quote row and the whole users table
unchanged, and redirects to the listing. -/
theorem create_appends_single_owned_row (s : Session) (f : QuoteForm) (db : DB)
    (qt pn : String) (hqt : f.quoteText = some qt) (hpn : f.personName = some pn) :
    ∃ r : Quote,
      postAddQuote (some s) f db =
        (Response.redirect "/home",
         { db with quotes := db.quotes ++ [r],
                   nextQuoteId := db.nextQuoteId + 1, clock := db.clock + 1 }) ∧
      r.UserId = s.userId ∧ r.quoteText = qt ∧ r.personName = pn ∧
      r.location = orNull f.location ∧ r.date = orNull f.date ∧
      ((f.location = none ∨ f.location = some "") → r.location = none) ∧
      ((f.date = none ∨ f.date = some "") → r.date = none) := by
  refine ⟨{ id := db.nextQuoteId, quoteText := qt, personName := pn,
            location := orNull f.location, date := orNull f.date,
            UserId := s.userId, createdAt := db.clock }, ?_, rfl, rfl, rfl, rfl, rfl, ?_, ?_⟩
  · simp [postAddQuote, requireLogin, quoteCreate, hqt, hpn]
  · rintro (h | h) <;> simp [orNull, h]
  · rintro (h | h) <;> simp [orNull, h]

/-- C10 witness: a concrete successful create by user 1 with an empty
location and an absent date appends the single expected row with both
normalised to null and the users table untouched. -/
theorem create_appends_single_owned_row_witness :
    ∃ r : Quote,
      postAddQuote (some { userId := 1, username := "alice" })
          { quoteText := some "Hi", personName := some "Bob",
            location := some "", date := none }
          { users := [{ id := 1, username := "alice" }],
            quotes := [{ id := 1, quoteText := "z", personName := "w", location := none,
                         date := none, UserId := 1, createdAt := 0 }],
            nextUserId := 2, nextQuoteId := 2, clock := 1 } =
        (Response.redirect "/home",
         { users := [{ id := 1, username := "alice" }],
           quotes := [{ id := 1, quoteText := "z", personName := "w", location := none,
                        date := none, UserId := 1, createdAt := 0 }] ++ [r],
           nextUserId := 2, nextQuoteId := 3, clock := 2 }) ∧
      r.UserId = 1 ∧ r.quoteText = "Hi" ∧ r.personName = "Bob" ∧
      r.location = orNull (some "") ∧ r.date = orNull none ∧
      ((some "" = (none : Option String) ∨ (some "" : Option String) = some "") →
        r.location = none) ∧
      (((none : Option String) = none ∨ (none : Option String) = some "") →
        r.date = none) :=
  create_appends_single_owned_row { userId := 1, username := "alice" } _ _ "Hi" "Bob" rfl rfl

/-- C1 counterexample: the legacy delete route of src/unnamed/part_000
destroys by bare id — its where-object touches a quote by id yet
carries no owner filter — and it does delete: from a table holding
quote id 1 it removes the row and redirects, with no session involved
and no owner column on the row at all. -/
theorem legacy_delete_lacks_owner_filter :
    ¬ ownerFiltered (legacyDeleteWhere 1) ∧
    ¬ ownerFiltered (legacyEditWhere 1) ∧
    legacyPostDeleteQuote 1
        [{ id := 1, quoteText := "q", personName := "p", location := none,
           date := none, createdAt := 0 }] =
      (Response.redirect "/", []) := by
  refine ⟨?_, ?_, rfl⟩
  · intro h
    simpa [legacyDeleteWhere] using h (by simp [legacyDeleteWhere])
  · intro h
    simpa [legacyEditWhere] using h (by simp [legacyEditWhere])

/-- C1 (amended): in the session-based server (src/app.js) every query
that touches a quote by id carries the owner filter, and any quote
listed on home, shown in the edit form, serialized to stats or quiz, or
reachable by the edit and delete mutations belongs to the session user:
foreign-owned rows are never rendered and survive both mutations
unchanged.  The legacy pre-session variant has no sessions and filters
its by-id queries by id alone. -/
theorem session_owner_isolation (s : Session) (db : DB) (qid : Nat) (f : EditForm) :
    ownerFiltered (editFormWhere qid s.userId) ∧
    ownerFiltered (editUpdateWhere qid s.userId) ∧
    ownerFiltered (deleteWhere qid s.userId) ∧
    (∀ qs un q, (getHome (some s) db).1 = Response.renderHome qs un →
       q ∈ qs → q.UserId = s.userId) ∧
    (∀ q un, (getEditQuote (some s) qid db).1 = Response.renderEditForm q un →
       q.UserId = s.userId) ∧
    (∀ qs un q, (getStats (some s) db).1 = Response.renderStats qs un →
       q ∈ qs → q.UserId = s.userId) ∧
    (∀ qs un q, (getGame (some s) db).1 = Response.renderGame qs un →
       q ∈ qs → q.UserId = s.userId) ∧
    (∀ q, q ∈ db.quotes → q.UserId ≠ s.userId →
       q ∈ (postDeleteQuote (some s) qid db).2.quotes ∧
       q ∈ (postEditQuote (some s) qid f db).2.quotes) := by
  refine ⟨fun _ => rfl, fun _ => rfl, fun _ => rfl, ?_, ?_, ?_, ?_, ?_⟩
  · intro qs un q h hmem
    have h2 : Response.renderHome (findAllQuotesDesc db (homeWhere s.userId)) s.username =
        Response.renderHome qs un := h
    have hqs : findAllQuotesDesc db (homeWhere s.userId) = qs := by
      injection h2
    rw [← hqs] at hmem
    exact ((mem_findAllQuotesDesc_byUser db s.userId q).mp hmem).2
  · intro q un h
    cases hfind : findOneQuote db (editFormWhere qid s.userId) with
    | none =>
        have h2 : (getEditQuote (some s) qid db).1 = Response.notFound "Quote not found" := by
          simp [getEditQuote, requireLogin, hfind]
        rw [h2] at h
        exact absurd h (by simp)
    | some q0 =>
        have h2 : (getEditQuote (some s) qid db).1 =
            Response.renderEditForm q0 s.username := by
          simp [getEditQuote, requireLogin, hfind]
        rw [h2] at h
        have hq0 : q0 = q := by injection h
        have hfind2 : db.quotes.find? (quoteMatches (editFormWhere qid s.userId)) = some q0 :=
          hfind
        have hmatch0 := List.find?_some hfind2
        have hmatch : (q0.id == qid && q0.UserId == s.userId) = true := hmatch0
        have := ((Bool.and_eq_true _ _).mp hmatch).2
        rw [← hq0]
        simpa using this
  · intro qs un q h hmem
    have h2 : Response.renderStats (findAllQuotes db (statsWhere s.userId)) s.username =
        Response.renderStats qs un := h
    have hqs : findAllQuotes db (statsWhere s.userId) = qs := by
      injection h2
    rw [← hqs] at hmem
    exact ((mem_findAllQuotes_byUser db s.userId q).mp hmem).2
  · intro qs un q h hmem
    by_cases hl : (findAllQuotes db (statsWhere s.userId)).length < 2
    · have h2 : (getGame (some s) db).1 =
          Response.renderGameInsufficient [] s.username := by
        simp [getGame, requireLogin, hl]
      rw [h2] at h
      exact absurd h (by simp)
    · have h2 : (getGame (some s) db).1 =
          Response.renderGame (findAllQuotes db (statsWhere s.userId)) s.username := by
        simp [getGame, requireLogin, hl]
      rw [h2] at h
      have hqs : findAllQuotes db (statsWhere s.userId) = qs := by
        injection h
      rw [← hqs] at hmem
      exact ((mem_findAllQuotes_byUser db s.userId q).mp hmem).2
  · intro q hq hne
    have hm : quoteMatches { id := some qid, UserId := some s.userId } q = false := by
      rw [quoteMatches_byIdUser]
      cases hbe : (q.UserId == s.userId) with
      | true => exact absurd (by simpa using hbe) hne
      | false => simp [hbe]
    constructor
    · have hdel : (postDeleteQuote (some s) qid db).2.quotes =
          db.quotes.filter (fun r => !(quoteMatches (deleteWhere qid s.userId) r)) := rfl
      rw [hdel, List.mem_filter]
      exact ⟨hq, by simp [deleteWhere, hm]⟩
    · have hupd : (postEditQuote (some s) qid f db).2.quotes =
          db.quotes.map (fun r =>
            if quoteMatches (editUpdateWhere qid s.userId) r then
              { r with quoteText := f.quoteText, personName := f.personName,
                       location := strOrNull f.location, date := strOrNull f.date }
            else r) := rfl
      rw [hupd]
      refine List.mem_map.mpr ⟨q, hq, ?_⟩
      simp [editUpdateWhere, hm]

/-- C1 amended witness: concretely, with user 1 logged in, the by-id
where-objects carry the owner filter, the quote listed on home belongs
to user 1, and the foreign-owned quote id 2 survives both a delete and
an edit aimed at it by user 1. -/
theorem session_owner_isolation_witness :
    ownerFiltered (deleteWhere 2 1) ∧
    ({ id := 1, quoteText := "a", personName := "p", location := none, date := none,
       UserId := 1, createdAt := 0 } : Quote).UserId = 1 ∧
    (({ id := 2, quoteText := "b", personName := "r", location := none, date := none,
        UserId := 2, createdAt := 1 } : Quote) ∈
      (postDeleteQuote (some { userId := 1, username := "alice" }) 2
        { users := [{ id := 1, username := "alice" }, { id := 2, username := "bob" }],
          quotes := [{ id := 1, quoteText := "a", personName := "p", location := none,
                       date := none, UserId := 1, createdAt := 0 },
                     { id := 2, quoteText := "b", personName := "r", location := none,
                       date := none, UserId := 2, createdAt := 1 }],
          nextUserId := 3, nextQuoteId := 3, clock := 2 }).2.quotes ∧
     ({ id := 2, quoteText := "b", personName := "r", location := none, date := none,
        UserId := 2, createdAt := 1 } : Quote) ∈
      (postEditQuote (some { userId := 1, username := "alice" }) 2
        { quoteText := "x", personName := "y", location := "", date := "" }
        { users := [{ id := 1, username := "alice" }, { id := 2, username := "bob" }],
          quotes := [{ id := 1, quoteText := "a", personName := "p", location := none,
                       date := none, UserId := 1, createdAt := 0 },
                     { id := 2, quoteText := "b", personName := "r", location := none,
                       date := none, UserId := 2, createdAt := 1 }],
          nextUserId := 3, nextQuoteId := 3, clock := 2 }).2.quotes) := by
  have happ := session_owner_isolation { userId := 1, username := "alice" }
    { users := [{ id := 1, username := "alice" }, { id := 2, username := "bob" }],
      quotes := [{ id := 1, quoteText := "a", personName := "p", location := none,
                   date := none, UserId := 1, createdAt := 0 },
                 { id := 2, quoteText := "b", personName := "r", location := none,
                   date := none, UserId := 2, createdAt := 1 }],
      nextUserId := 3, nextQuoteId := 3, clock := 2 } 2
    { quoteText := "x", personName := "y", location := "", date := "" }
  refine ⟨happ.2.2.1, ?_, ?_⟩
  · exact happ.2.2.2.1
      [{ id := 1, quoteText := "a", personName := "p", location := none, date := none,
         UserId := 1, createdAt := 0 }] "alice"
      { id := 1, quoteText := "a", personName := "p", location := none, date := none,
        UserId := 1, createdAt := 0 } (by decide) (by decide)
  · exact happ.2.2.2.2.2.2.2
      { id := 2, quoteText := "b", personName := "r", location := none, date := none,
        UserId := 2, createdAt := 1 } (by decide) (by decide)

end QuoteJar
